import Mathlib

/-!
Verification of the per-target session engine of `common/frame_session.go`
(xk6-browser). Handlers of CDP events are embedded as pure functions from
an explicit session state (frame registry, execution-context map) and an
event to a new state together with a trace of the effects the handler
performs on its collaborators (FrameManager mutations, metric samples,
logger calls, fatal escalation).
-/

namespace FrameSessionModel

abbrev FrameID := String
abbrev ContextID := Nat

/-- The fixed utility-world name constant of frame_session.go. -/
def utilityWorldName : String := "__k6_browser_utility_world__"

/-- Checks that `pat` occurs at the head of `s` (helper for substring search). -/
def subAt : List Char → List Char → Bool
  | [], _ => true
  | _ :: _, [] => false
  | a :: as, b :: bs => a == b && subAt as bs

/-- Checks that `pat` occurs somewhere in `s` (helper for substring search). -/
def hasSubList (pat : List Char) : List Char → Bool
  | [] => pat.isEmpty
  | c :: rest => subAt pat (c :: rest) || hasSubList pat rest

/-- Embedding of Go `strings.Contains s pat`. -/
def goContains (s pat : String) : Bool :=
  hasSubList pat.toList s.toList

/-- The two named execution-context worlds a frame can hold. -/
inductive World where
  | main
  | utility
deriving DecidableEq, Repr

/-- Modelled from the spec: the in-memory mirror of one HTML frame, restricted
to the parts the FrameSession handlers touch: its id, its URL, and its two
execution-context slots ("at most one main world and one utility world at a
time"). -/
structure Frame where
  id : FrameID
  url : String
  mainWorldCtx : Option ContextID
  utilityWorldCtx : Option ContextID
deriving DecidableEq, Repr

/-- Modelled from the spec: `Frame.hasContext(world)` — whether the frame's
slot for the given world is populated. -/
def Frame.hasContext (f : Frame) (w : World) : Bool :=
  match w with
  | World.main => f.mainWorldCtx.isSome
  | World.utility => f.utilityWorldCtx.isSome

/-- Modelled from the spec: `Frame.setContext(world, ctx)` — store the context
id in the frame's slot for that world. -/
def Frame.setContext (f : Frame) (w : World) (c : ContextID) : Frame :=
  match w with
  | World.main => { f with mainWorldCtx := some c }
  | World.utility => { f with utilityWorldCtx := some c }

/-- Modelled from the spec: `Frame.nullContext(ctxID)` — null any world slot
holding exactly this context id, so a stale slot is not cleared twice. -/
def Frame.nullContext (f : Frame) (c : ContextID) : Frame :=
  { f with
    mainWorldCtx := if f.mainWorldCtx = some c then none else f.mainWorldCtx
    utilityWorldCtx := if f.utilityWorldCtx = some c then none else f.utilityWorldCtx }

/-- Modelled from the spec: the FrameManager's registry of frames by id;
`getFrameByID` returns the registered frame for an id, if any. -/
def getFrameByID (frames : List Frame) (fid : FrameID) : Option Frame :=
  frames.find? (fun f => f.id == fid)

/-- Apply a mutation to the registered frame with the given id (the registry
models the heap: a frame pointer is identified by its frame id). -/
def updateFrame (frames : List Frame) (fid : FrameID) (g : Frame → Frame) : List Frame :=
  frames.map (fun f => if f.id == fid then g f else f)

/-- An execution context as created by `NewExecutionContext`: its id and the
owning frame, when one was resolved at creation time. -/
structure ExecutionContext where
  id : ContextID
  frame : Option FrameID
deriving DecidableEq, Repr

/-- Go map insertion (overwrite semantics) for the contextId-to-context map. -/
def mapInsert (m : List (ContextID × ExecutionContext)) (k : ContextID)
    (v : ExecutionContext) : List (ContextID × ExecutionContext) :=
  (k, v) :: m.filter (fun p => !(p.1 == k))

/-- Go set insertion for the isolated-worlds name set. -/
def insertName (s : List String) (n : String) : List String :=
  if n ∈ s then s else n :: s

/-- The FrameSession state the execution-context handlers read and write:
the frame registry (standing for the FrameManager's frames plus their world
slots), the session's contextId-to-context map and the isolated-world set. -/
structure SessionState where
  frames : List Frame
  contextIDToContext : List (ContextID × ExecutionContext)
  isolatedWorlds : List String
deriving Repr

/-- The parsed `Runtime.executionContextCreated` event: context id and name
from the context description, frame id / isDefault / type from the parsed
auxiliary data. -/
structure EventExecutionContextCreated where
  ctxId : ContextID
  name : String
  frameId : FrameID
  isDefault : Bool
  auxType : String
deriving Repr

/-- Embedding of `FrameSession.onExecutionContextCreated`: resolve the frame,
choose a world (default → main; name = utility-world-name and no utility
context yet → utility; else none), record isolated world names, assign the
context to the chosen world slot, and register it in the map under its id. -/
def onExecutionContextCreated (st : SessionState) (ev : EventExecutionContextCreated) :
    SessionState :=
  let frame := getFrameByID st.frames ev.frameId
  let world : Option World :=
    match frame with
    | none => none
    | some f =>
      if ev.isDefault then some World.main
      else if ev.name = utilityWorldName && !(f.hasContext World.utility) then
        some World.utility
      else none
  let isolated :=
    if ev.auxType = "isolated" then insertName st.isolatedWorlds ev.name
    else st.isolatedWorlds
  let context : ExecutionContext := ⟨ev.ctxId, frame.map Frame.id⟩
  let frames :=
    match world with
    | some w => updateFrame st.frames ev.frameId (fun f => f.setContext w ev.ctxId)
    | none => st.frames
  { frames := frames
    contextIDToContext := mapInsert st.contextIDToContext ev.ctxId context
    isolatedWorlds := isolated }

/-- One iteration of the loop body of `onExecutionContextsCleared`: when the
context has an owning frame, null that frame's slot for the context's id. -/
def clearStep (frs : List Frame) (e : ContextID × ExecutionContext) : List Frame :=
  match e.2.frame with
  | some fid => updateFrame frs fid (fun f => f.nullContext e.2.id)
  | none => frs

/-- The frame-registry part of `onExecutionContextsCleared`: for every context
in the map that has an owning frame, null that frame's slot for the context's
id. -/
def clearContexts (frames : List Frame)
    (entries : List (ContextID × ExecutionContext)) : List Frame :=
  entries.foldl clearStep frames

/-- Embedding of `FrameSession.onExecutionContextsCleared`: null every frame
slot referenced by the contextId-to-context map, then empty the map. -/
def onExecutionContextsCleared (st : SessionState) : SessionState :=
  { frames := clearContexts st.frames st.contextIDToContext
    contextIDToContext := []
    isolatedWorlds := st.isolatedWorlds }

/-- Embedding of `FrameSession.onExecutionContextDestroyed`: if the id is in
the map, null the owning frame's slot for it and drop the map entry. -/
def onExecutionContextDestroyed (st : SessionState) (execCtxID : ContextID) :
    SessionState :=
  match st.contextIDToContext.lookup execCtxID with
  | none => st
  | some ctx =>
    { frames :=
        match ctx.frame with
        | some fid => updateFrame st.frames fid (fun f => f.nullContext ctx.id)
        | none => st.frames
      contextIDToContext := st.contextIDToContext.filter (fun p => !(p.1 == execCtxID))
      isolatedWorlds := st.isolatedWorlds }

/-! ### Frame-tree seeding (`initFrameTree` / `handleFrameTree`) -/

/-- The `Page.getFrameTree` payload: a frame (id and parent id; the root of a
page's tree has an empty parent id) and its child subtrees. -/
inductive FrameTree where
  | node (fid : FrameID) (parentId : FrameID) (children : List FrameTree)
deriving Repr

def FrameTree.fid : FrameTree → FrameID
  | node f _ _ => f

def FrameTree.parentId : FrameTree → FrameID
  | node _ p _ => p

def FrameTree.children : FrameTree → List FrameTree
  | node _ _ cs => cs

/-- The FrameManager mutations the tree walk issues, in order. -/
inductive TraceEv where
  | frameAttached (fid parentId : FrameID)
  | frameNavigated (fid : FrameID) (initial : Bool)
deriving DecidableEq, Repr

mutual
/-- Embedding of `FrameSession.handleFrameTree` as the ordered trace of
FrameManager calls it makes: attach the frame when it has a parent, navigate
it with `initial = true`, then recurse into the children. -/
def handleFrameTree : FrameTree → List TraceEv
  | FrameTree.node f p cs =>
    (if p ≠ "" then [TraceEv.frameAttached f p] else []) ++
      TraceEv.frameNavigated f true :: handleFrameTreeList cs

/-- The trace of `handleFrameTree` over a child list, left to right. -/
def handleFrameTreeList : List FrameTree → List TraceEv
  | [] => []
  | c :: cs => handleFrameTree c ++ handleFrameTreeList cs
end

/-- Embedding of the frame-seeding part of `FrameSession.initFrameTree`: the
tree returned by `Page.getFrameTree` is walked only when the session is the
main-frame session (`fs.isMainFrame()`). -/
def initFrameTreeTrace (isMain : Bool) (t : FrameTree) : List TraceEv :=
  if isMain then handleFrameTree t else []

/-- `Subtree s t`: `s` is `t` itself or a frame subtree nested below `t`. -/
inductive Subtree : FrameTree → FrameTree → Prop where
  | refl (t : FrameTree) : Subtree t t
  | step {s c t : FrameTree} : Subtree s c → c ∈ t.children → Subtree s t

/-! ### Page lifecycle events (`onPageLifecycle`) -/

/-- The browser metrics emitted from lifecycle events. -/
inductive K6Metric where
  | browserLoaded
  | browserDOMContentLoaded
  | browserFirstPaint
  | browserFirstContentfulPaint
  | browserFirstMeaningfulPaint
deriving DecidableEq, Repr

/-- A pushed duration sample: metric, value `endTime - initTime`, and tags
(the cloned scope tags, plus the frame URL when the url system tag is on). -/
structure Sample where
  metric : K6Metric
  value : Int
  tags : List (String × String)
deriving DecidableEq, Repr

/-- Effects of the lifecycle handler: FrameManager lifecycle recording and
metric-sample emission. -/
inductive PLEffect where
  | lifecycleLoad (fid : FrameID)
  | lifecycleDOMContentLoad (fid : FrameID)
  | emit (s : Sample)
deriving DecidableEq, Repr

/-- The `Page.lifecycleEvent` payload: frame id, event name, timestamp. -/
structure EventLifecycle where
  frameId : FrameID
  name : String
  timestamp : Int
deriving Repr

/-- The paint-event-name-to-metric table of `onPageLifecycle`. -/
def eventToMetric (n : String) : Option K6Metric :=
  if n = "firstPaint" then some K6Metric.browserFirstPaint
  else if n = "firstContentfulPaint" then some K6Metric.browserFirstContentfulPaint
  else if n = "firstMeaningfulPaint" then some K6Metric.browserFirstMeaningfulPaint
  else none

/-- The tags of one sample: the cloned scope tags, and the frame URL under
key "url" when the url system tag is enabled. -/
def sampleTags (baseTags : List (String × String)) (urlTagEnabled : Bool)
    (f : Frame) : List (String × String) :=
  if urlTagEnabled then baseTags ++ [("url", f.url)] else baseTags

/-- Embedding of `FrameSession.onPageLifecycle`: returns the new session init
timestamp and the ordered effect list. `init`/`commit` store the timestamp;
`load` and `DOMContentLoaded` record the frame lifecycle event and, when the
frame id resolves, emit one duration sample `timestamp - initTime`; the three
paint names emit the corresponding paint metric. -/
def onPageLifecycle (frames : List Frame) (baseTags : List (String × String))
    (urlTagEnabled : Bool) (initTime : Int) (ev : EventLifecycle) :
    Int × List PLEffect :=
  let initTime' := if ev.name = "init" ∨ ev.name = "commit" then ev.timestamp else initTime
  if ev.name = "load" then
    (initTime',
      PLEffect.lifecycleLoad ev.frameId ::
        match getFrameByID frames ev.frameId with
        | some f =>
          [PLEffect.emit
            ⟨K6Metric.browserLoaded, ev.timestamp - initTime',
              sampleTags baseTags urlTagEnabled f⟩]
        | none => [])
  else if ev.name = "DOMContentLoaded" then
    (initTime',
      PLEffect.lifecycleDOMContentLoad ev.frameId ::
        match getFrameByID frames ev.frameId with
        | some f =>
          [PLEffect.emit
            ⟨K6Metric.browserDOMContentLoaded, ev.timestamp - initTime',
              sampleTags baseTags urlTagEnabled f⟩]
        | none => [])
  else
    (initTime',
      match getFrameByID frames ev.frameId with
      | some f =>
        match eventToMetric ev.name with
        | some m =>
          [PLEffect.emit
            ⟨m, ev.timestamp - initTime', sampleTags baseTags urlTagEnabled f⟩]
        | none => []
      | none => [])

/-! ### Console and log entries (`onConsoleAPICalled` / `onLogEntryAdded`) -/

/-- The logger severities used by the two diagnostic handlers. -/
inductive LogSeverity where
  | info
  | warn
  | error
  | debug
deriving DecidableEq, Repr

/-- What a diagnostic handler can do: write one log line at a severity, or
escalate fatally (the latter never occurs; it is here so "never escalates"
is a statement, not a typing accident). -/
inductive ConsoleEffect where
  | logAt (sev : LogSeverity)
  | fatal
deriving DecidableEq, Repr

/-- Embedding of `FrameSession.onConsoleAPICalled` (severity switch on the
console API call type). -/
def onConsoleAPICalled (evType : String) : List ConsoleEffect :=
  if evType = "log" ∨ evType = "info" then [ConsoleEffect.logAt LogSeverity.info]
  else if evType = "warning" then [ConsoleEffect.logAt LogSeverity.warn]
  else if evType = "error" then [ConsoleEffect.logAt LogSeverity.error]
  else [ConsoleEffect.logAt LogSeverity.debug]

/-- Embedding of `FrameSession.onLogEntryAdded` (severity switch on the log
entry level; note the switch has no "log" case). -/
def onLogEntryAdded (level : String) : List ConsoleEffect :=
  if level = "info" then [ConsoleEffect.logAt LogSeverity.info]
  else if level = "warning" then [ConsoleEffect.logAt LogSeverity.warn]
  else if level = "error" then [ConsoleEffect.logAt LogSeverity.error]
  else [ConsoleEffect.logAt LogSeverity.debug]

/-! ### Locale / timezone emulation (`emulateLocale` / `emulateTimezone`) -/

/-- Embedding of `FrameSession.emulateLocale`, as a function of the CDP
command outcome (`none` = success, `some e` = error text `e`): an error whose
text contains the already-in-effect message is success; any other error is
returned wrapped. -/
def emulateLocale (cdpErr : Option String) : Except String Unit :=
  match cdpErr with
  | none => Except.ok ()
  | some e =>
    if goContains e "Another locale override is already in effect" then Except.ok ()
    else Except.error ("unable to set locale: " ++ e)

/-- Embedding of `FrameSession.emulateTimezone`, as a function of the CDP
command outcome. -/
def emulateTimezone (cdpErr : Option String) : Except String Unit :=
  match cdpErr with
  | none => Except.ok ()
  | some e =>
    if goContains e "Timezone override is already in effect" then Except.ok ()
    else Except.error ("unable to set timezone ID: " ++ e)

/-! ### Target attachment routing (`onAttachedToTarget`) -/

/-- The target description carried by `Target.attachedToTarget`. -/
structure TargetInfo where
  targetId : FrameID
  targetType : String
  url : String
deriving Repr

/-- The `Target.attachedToTarget` event: new session id and target info. -/
structure EventAttachedToTarget where
  sessionId : String
  targetInfo : TargetInfo
deriving Repr

/-- Effects of the target-attach router, in order. -/
inductive AttachEffect where
  | removeChildFramesRecursively (fid : FrameID)
  | attachFrameSession (fid : FrameID)
  | runIfWaitingForDebugger
  | detachFromTarget
  | registerWorker (sessionId : String)
  | throwFatal (msg : String)
deriving DecidableEq, Repr

/-- Connection state consulted when child construction fails. -/
structure BuildEnv where
  connected : Bool
  ctxDone : Bool
deriving Repr

/-- The abnormal-WebSocket-closure signature matched against error text. -/
def abnormalClosure : String := "websocket: close 1006 (abnormal closure)"

/-- Embedding of the error path shared by the iframe and worker branches of
`onAttachedToTarget`: suppress when the browser is disconnected and the error
text matches the abnormal-closure signature; otherwise suppress when the
session context is done; otherwise escalate fatally with a wrapped error. -/
def childBuildFailureEffects (env : BuildEnv) (errText msg : String) :
    List AttachEffect :=
  if !env.connected && goContains errText abnormalClosure then []
  else if env.ctxDone then []
  else [AttachEffect.throwFatal (msg ++ ": " ++ errText)]

/-- Embedding of `FrameSession.onAttachedToTarget` as the ordered trace of its
effects. `buildErr` stands for the outcome of constructing the child
FrameSession (iframe branch) or Worker (worker branch): `none` = success,
`some e` = construction failed with error text `e`. -/
def onAttachedToTarget (frames : List Frame) (env : BuildEnv)
    (ev : EventAttachedToTarget) (buildErr : Option String) : List AttachEffect :=
  if ev.targetInfo.targetType = "iframe" ∧ ev.targetInfo.url ≠ "" then
    match getFrameByID frames ev.targetInfo.targetId with
    | none => []
    | some _ =>
      AttachEffect.removeChildFramesRecursively ev.targetInfo.targetId ::
        match buildErr with
        | none => [AttachEffect.attachFrameSession ev.targetInfo.targetId]
        | some e => childBuildFailureEffects env e "cannot create frame session (iframe)"
  else if ev.targetInfo.targetType ≠ "worker" then
    [AttachEffect.runIfWaitingForDebugger, AttachEffect.detachFromTarget]
  else
    match buildErr with
    | none => [AttachEffect.registerWorker ev.sessionId]
    | some e => childBuildFailureEffects env e "cannot create frame session (worker)"

/-! ### Geolocation emulation (`updateGeolocation`) -/

/-- The browser-context geolocation option (`Accurracy` is the source's own
field spelling). -/
structure Geolocation where
  latitude : Int
  longitude : Int
  accurracy : Int
deriving DecidableEq, Repr

/-- The `Emulation.setGeolocationOverride` command issued by the handler. -/
structure SetGeolocationOverrideCmd where
  latitude : Int
  longitude : Int
  accuracy : Int
deriving DecidableEq, Repr

/-- Embedding of `FrameSession.updateGeolocation`: the outer `Option` is
`none` exactly when the handler dereferences the nil geolocation pointer
(Go panic); `some none` means it returned nil without issuing a command;
`some (some cmd)` means it issued `cmd`. -/
def updateGeolocation (initial : Bool) (geolocation : Option Geolocation) :
    Option (Option SetGeolocationOverrideCmd) :=
  if !initial || geolocation.isSome then
    match geolocation with
    | some g => some (some ⟨g.latitude, g.longitude, g.accurracy⟩)
    | none => none
  else
    some none

/-! ## Claim theorems -/

/-- Claim C6: in `emulateLocale` and `emulateTimezone`, a CDP error whose text
contains the already-in-effect message is treated as success (nil), and any
other CDP error is returned wrapped with a descriptive message; a successful
CDP call also returns nil, so repeated overrides never fail construction. -/
theorem c6_emulate_already_in_effect (e : String) :
    (goContains e "Another locale override is already in effect" = true →
      emulateLocale (some e) = Except.ok ()) ∧
    (goContains e "Another locale override is already in effect" = false →
      emulateLocale (some e) = Except.error ("unable to set locale: " ++ e)) ∧
    (goContains e "Timezone override is already in effect" = true →
      emulateTimezone (some e) = Except.ok ()) ∧
    (goContains e "Timezone override is already in effect" = false →
      emulateTimezone (some e) = Except.error ("unable to set timezone ID: " ++ e)) ∧
    emulateLocale none = Except.ok () ∧ emulateTimezone none = Except.ok () := by
  refine ⟨fun h => ?_, fun h => ?_, fun h => ?_, fun h => ?_, rfl, rfl⟩ <;>
    simp [emulateLocale, emulateTimezone, h]

/-- Witness for C6 at concrete error texts: the exact already-in-effect texts
succeed, a different error text is returned wrapped. -/
theorem c6_emulate_already_in_effect_witness :
    emulateLocale (some "Another locale override is already in effect") = Except.ok () ∧
    emulateLocale (some "boom") = Except.error ("unable to set locale: " ++ "boom") ∧
    emulateTimezone (some "Timezone override is already in effect") = Except.ok () := by
  refine ⟨(c6_emulate_already_in_effect _).1 (by decide),
    (c6_emulate_already_in_effect _).2.1 (by decide),
    (c6_emulate_already_in_effect _).2.2.1 (by decide)⟩

/-- Claim C9: `updateGeolocation(initial = true)` with a nil geolocation
option issues no command and returns nil, but `updateGeolocation(initial =
false)` with a nil geolocation passes the guard `!initial || geolocation !=
nil` and dereferences the nil pointer (modelled as the outer `none`); with a
non-nil geolocation the override command carries its fields. -/
theorem c9_update_geolocation_nil_deref :
    updateGeolocation true none = some none ∧
    updateGeolocation false none = none ∧
    (∀ g : Geolocation, ∀ b : Bool,
      updateGeolocation b (some g) =
        some (some ⟨g.latitude, g.longitude, g.accurracy⟩)) := by
  refine ⟨rfl, rfl, fun g b => ?_⟩
  cases b <;> simp [updateGeolocation]

/-- Claim C10: a `Target.attachedToTarget` event with target type "iframe"
but an empty URL falls through to the non-worker branch: the handler only
fire-and-forgets `Runtime.runIfWaitingForDebugger` and
`Target.detachFromTarget`, leaving the frame tree and the child-session
registry unchanged. -/
theorem c10_attached_iframe_empty_url (frames : List Frame) (env : BuildEnv)
    (ev : EventAttachedToTarget) (buildErr : Option String)
    (htype : ev.targetInfo.targetType = "iframe")
    (hurl : ev.targetInfo.url = "") :
    onAttachedToTarget frames env ev buildErr =
      [AttachEffect.runIfWaitingForDebugger, AttachEffect.detachFromTarget] := by
  simp [onAttachedToTarget, htype, hurl]

/-- Witness for C10 at a concrete event. -/
theorem c10_attached_iframe_empty_url_witness :
    onAttachedToTarget [] ⟨true, false⟩ ⟨"sess1", ⟨"t1", "iframe", ""⟩⟩ none =
      [AttachEffect.runIfWaitingForDebugger, AttachEffect.detachFromTarget] :=
  c10_attached_iframe_empty_url [] ⟨true, false⟩ ⟨"sess1", ⟨"t1", "iframe", ""⟩⟩ none rfl rfl

/-- Claim C2: for an "iframe" attach event with non-empty URL: if no frame is
registered under the target id the handler is a no-op (empty effect trace);
otherwise it removes the frame's descendants, constructs the child
FrameSession (here: construction succeeds), and registers it under the frame
id, in that order. -/
theorem c2_attached_iframe_routing (frames : List Frame) (env : BuildEnv)
    (ev : EventAttachedToTarget)
    (htype : ev.targetInfo.targetType = "iframe")
    (hurl : ev.targetInfo.url ≠ "") :
    (getFrameByID frames ev.targetInfo.targetId = none →
      onAttachedToTarget frames env ev none = []) ∧
    (∀ f : Frame, getFrameByID frames ev.targetInfo.targetId = some f →
      onAttachedToTarget frames env ev none =
        [AttachEffect.removeChildFramesRecursively ev.targetInfo.targetId,
         AttachEffect.attachFrameSession ev.targetInfo.targetId]) := by
  constructor
  · intro hnone
    simp [onAttachedToTarget, htype, hurl, hnone]
  · intro f hsome
    simp [onAttachedToTarget, htype, hurl, hsome]

/-- Witness for C2: with an empty registry the handler is a no-op; with the
frame registered it removes descendants and registers the child session. -/
theorem c2_attached_iframe_routing_witness :
    onAttachedToTarget [] ⟨true, false⟩ ⟨"s", ⟨"f1", "iframe", "https://x"⟩⟩ none = [] ∧
    onAttachedToTarget [⟨"f1", "https://x", none, none⟩] ⟨true, false⟩
        ⟨"s", ⟨"f1", "iframe", "https://x"⟩⟩ none =
      [AttachEffect.removeChildFramesRecursively "f1",
       AttachEffect.attachFrameSession "f1"] := by
  constructor
  · exact (c2_attached_iframe_routing [] ⟨true, false⟩
      ⟨"s", ⟨"f1", "iframe", "https://x"⟩⟩ rfl (by decide)).1 rfl
  · exact (c2_attached_iframe_routing [⟨"f1", "https://x", none, none⟩] ⟨true, false⟩
      ⟨"s", ⟨"f1", "iframe", "https://x"⟩⟩ rfl (by decide)).2
      ⟨"f1", "https://x", none, none⟩ rfl

/-- Claim C7: when child construction inside `onAttachedToTarget` fails, the
error is suppressed when the browser is disconnected and the text matches the
close-1006 signature (regardless of the cancellation state — the disconnected
check comes first); otherwise it is suppressed when the session context is
done; otherwise it escalates fatally with a wrapped error. The final clause
ties the shared error path to the iframe branch of the handler. -/
theorem c7_child_build_failure (env : BuildEnv) (e msg : String) :
    (env.connected = false → goContains e abnormalClosure = true →
      childBuildFailureEffects env e msg = []) ∧
    ((env.connected = true ∨ goContains e abnormalClosure = false) →
      env.ctxDone = true → childBuildFailureEffects env e msg = []) ∧
    ((env.connected = true ∨ goContains e abnormalClosure = false) →
      env.ctxDone = false →
      childBuildFailureEffects env e msg =
        [AttachEffect.throwFatal (msg ++ ": " ++ e)]) ∧
    (∀ (frames : List Frame) (ev : EventAttachedToTarget) (f : Frame),
      ev.targetInfo.targetType = "iframe" → ev.targetInfo.url ≠ "" →
      getFrameByID frames ev.targetInfo.targetId = some f →
      onAttachedToTarget frames env ev (some e) =
        AttachEffect.removeChildFramesRecursively ev.targetInfo.targetId ::
          childBuildFailureEffects env e "cannot create frame session (iframe)") := by
  refine ⟨fun hc hm => ?_, fun h hd => ?_, fun h hd => ?_, fun frames ev f ht hu hf => ?_⟩
  · simp [childBuildFailureEffects, hc, hm]
  · rcases h with h | h <;> simp [childBuildFailureEffects, h, hd]
  · rcases h with h | h <;> simp [childBuildFailureEffects, h, hd]
  · simp [onAttachedToTarget, ht, hu, hf]

/-- Witness for C7: a disconnected browser with a close-1006 error is
suppressed even though the context is not done; a connected browser with the
context not done escalates fatally. -/
theorem c7_child_build_failure_witness :
    childBuildFailureEffects ⟨false, false⟩
      ("read: " ++ abnormalClosure) "cannot create frame session (iframe)" = [] ∧
    childBuildFailureEffects ⟨true, false⟩ "boom" "cannot create frame session (iframe)" =
      [AttachEffect.throwFatal ("cannot create frame session (iframe)" ++ ": " ++ "boom")] := by
  constructor
  · exact (c7_child_build_failure ⟨false, false⟩ _ _).1 rfl (by decide)
  · exact (c7_child_build_failure ⟨true, false⟩ "boom" _).2.2.1 (Or.inl rfl) rfl

/-- Counterexample to claim C8 as stated: a `Log.entryAdded` entry whose
level is "log" is logged at Debug, not at Info — `onLogEntryAdded`'s switch
has no "log" case, unlike `onConsoleAPICalled`'s. -/
theorem c8_severity_mapping_cex :
    onLogEntryAdded "log" = [ConsoleEffect.logAt LogSeverity.debug] ∧
    LogSeverity.debug ≠ LogSeverity.info := by
  exact ⟨rfl, by decide⟩

/-- Claim C8 (amended): `Runtime.consoleAPICalled` maps type "log" or "info"
to Info, "warning" to Warn, "error" to Error, all else to Debug;
`Log.entryAdded` maps level "info" to Info, "warning" to Warn, "error" to
Error, and every other level — including "log" — to Debug. Each handler emits
exactly one log line and never escalates an error. -/
theorem c8_severity_mapping_amended :
    onConsoleAPICalled "log" = [ConsoleEffect.logAt LogSeverity.info] ∧
    onConsoleAPICalled "info" = [ConsoleEffect.logAt LogSeverity.info] ∧
    onConsoleAPICalled "warning" = [ConsoleEffect.logAt LogSeverity.warn] ∧
    onConsoleAPICalled "error" = [ConsoleEffect.logAt LogSeverity.error] ∧
    onLogEntryAdded "info" = [ConsoleEffect.logAt LogSeverity.info] ∧
    onLogEntryAdded "warning" = [ConsoleEffect.logAt LogSeverity.warn] ∧
    onLogEntryAdded "error" = [ConsoleEffect.logAt LogSeverity.error] ∧
    onLogEntryAdded "log" = [ConsoleEffect.logAt LogSeverity.debug] ∧
    (∀ t : String, t ≠ "log" → t ≠ "info" → t ≠ "warning" → t ≠ "error" →
      onConsoleAPICalled t = [ConsoleEffect.logAt LogSeverity.debug]) ∧
    (∀ l : String, l ≠ "info" → l ≠ "warning" → l ≠ "error" →
      onLogEntryAdded l = [ConsoleEffect.logAt LogSeverity.debug]) ∧
    (∀ t : String, ConsoleEffect.fatal ∉ onConsoleAPICalled t) ∧
    (∀ l : String, ConsoleEffect.fatal ∉ onLogEntryAdded l) := by
  refine ⟨rfl, rfl, rfl, rfl, rfl, rfl, rfl, rfl,
    fun t h1 h2 h3 h4 => ?_, fun l h1 h2 h3 => ?_, fun t => ?_, fun l => ?_⟩
  · simp [onConsoleAPICalled, h1, h2, h3, h4]
  · simp [onLogEntryAdded, h1, h2, h3]
  · unfold onConsoleAPICalled
    split_ifs <;> simp
  · unfold onLogEntryAdded
    split_ifs <;> simp

/-- Witness for C8 (amended) at "verbose": both handlers log it at Debug. -/
theorem c8_severity_mapping_amended_witness :
    onConsoleAPICalled "verbose" = [ConsoleEffect.logAt LogSeverity.debug] ∧
    onLogEntryAdded "verbose" = [ConsoleEffect.logAt LogSeverity.debug] := by
  exact ⟨c8_severity_mapping_amended.2.2.2.2.2.2.2.2.1 "verbose"
      (by decide) (by decide) (by decide) (by decide),
    c8_severity_mapping_amended.2.2.2.2.2.2.2.2.2.1 "verbose"
      (by decide) (by decide) (by decide)⟩

/-- Claim C3: `onPageLifecycle` stores the event timestamp as init time on
"init"/"commit"; on "load" (resp. "DOMContentLoaded") it records the frame
lifecycle event and, when the frame id resolves, emits exactly one
BrowserLoaded (resp. BrowserDOMContentLoaded) sample of value
`timestamp - initTime` tagged with the scope tags plus the frame URL when the
url system tag is on; the three paint event names emit the corresponding
paint metric with the same duration formula. -/
theorem c3_page_lifecycle (frames : List Frame) (baseTags : List (String × String))
    (urlTagEnabled : Bool) (initTime : Int) (ev : EventLifecycle) :
    ((ev.name = "init" ∨ ev.name = "commit") →
      (onPageLifecycle frames baseTags urlTagEnabled initTime ev).1 = ev.timestamp) ∧
    (ev.name = "load" →
      (∀ f, getFrameByID frames ev.frameId = some f →
        onPageLifecycle frames baseTags urlTagEnabled initTime ev =
          (initTime,
            [PLEffect.lifecycleLoad ev.frameId,
             PLEffect.emit ⟨K6Metric.browserLoaded, ev.timestamp - initTime,
               sampleTags baseTags urlTagEnabled f⟩])) ∧
      (getFrameByID frames ev.frameId = none →
        onPageLifecycle frames baseTags urlTagEnabled initTime ev =
          (initTime, [PLEffect.lifecycleLoad ev.frameId]))) ∧
    (ev.name = "DOMContentLoaded" →
      (∀ f, getFrameByID frames ev.frameId = some f →
        onPageLifecycle frames baseTags urlTagEnabled initTime ev =
          (initTime,
            [PLEffect.lifecycleDOMContentLoad ev.frameId,
             PLEffect.emit ⟨K6Metric.browserDOMContentLoaded, ev.timestamp - initTime,
               sampleTags baseTags urlTagEnabled f⟩])) ∧
      (getFrameByID frames ev.frameId = none →
        onPageLifecycle frames baseTags urlTagEnabled initTime ev =
          (initTime, [PLEffect.lifecycleDOMContentLoad ev.frameId]))) ∧
    (∀ m, eventToMetric ev.name = some m →
      ∀ f, getFrameByID frames ev.frameId = some f →
        onPageLifecycle frames baseTags urlTagEnabled initTime ev =
          (initTime,
            [PLEffect.emit ⟨m, ev.timestamp - initTime,
              sampleTags baseTags urlTagEnabled f⟩])) := by
  refine ⟨fun h => ?_, fun h => ⟨fun f hf => ?_, fun hn => ?_⟩,
    fun h => ⟨fun f hf => ?_, fun hn => ?_⟩, fun m hm f hf => ?_⟩
  · rcases h with h | h <;> simp [onPageLifecycle, h]
  · simp [onPageLifecycle, h, hf]
  · simp [onPageLifecycle, h, hn]
  · simp [onPageLifecycle, h, hf]
  · simp [onPageLifecycle, h, hn]
  · have h1 : ev.name ≠ "init" := by
      intro h; rw [h] at hm; simp [eventToMetric] at hm
    have h2 : ev.name ≠ "commit" := by
      intro h; rw [h] at hm; simp [eventToMetric] at hm
    have h3 : ev.name ≠ "load" := by
      intro h; rw [h] at hm; simp [eventToMetric] at hm
    have h4 : ev.name ≠ "DOMContentLoaded" := by
      intro h; rw [h] at hm; simp [eventToMetric] at hm
    simp [onPageLifecycle, h1, h2, h3, h4, hf, hm]

/-- Witness for C3: a concrete session with one frame — an "init" event
stores its timestamp, a "load" event emits one BrowserLoaded sample of the
duration with the url tag, a "firstPaint" event emits the paint metric. -/
theorem c3_page_lifecycle_witness :
    (onPageLifecycle [⟨"f0", "https://x", none, none⟩] [("scenario", "s1")] true 40
        ⟨"f0", "init", 7⟩).1 = 7 ∧
    onPageLifecycle [⟨"f0", "https://x", none, none⟩] [("scenario", "s1")] true 40
        ⟨"f0", "load", 100⟩ =
      (40, [PLEffect.lifecycleLoad "f0",
            PLEffect.emit ⟨K6Metric.browserLoaded, 60,
              [("scenario", "s1"), ("url", "https://x")]⟩]) ∧
    onPageLifecycle [⟨"f0", "https://x", none, none⟩] [("scenario", "s1")] true 40
        ⟨"f0", "firstPaint", 90⟩ =
      (40, [PLEffect.emit ⟨K6Metric.browserFirstPaint, 50,
              [("scenario", "s1"), ("url", "https://x")]⟩]) := by
  refine ⟨(c3_page_lifecycle _ _ _ _ _).1 (Or.inl rfl), ?_, ?_⟩
  · have h := ((c3_page_lifecycle [⟨"f0", "https://x", none, none⟩] [("scenario", "s1")]
      true 40 ⟨"f0", "load", 100⟩).2.1 rfl).1 ⟨"f0", "https://x", none, none⟩ (by decide)
    rw [h]; decide
  · have h := (c3_page_lifecycle [⟨"f0", "https://x", none, none⟩] [("scenario", "s1")]
      true 40 ⟨"f0", "firstPaint", 90⟩).2.2.2 K6Metric.browserFirstPaint (by decide)
      ⟨"f0", "https://x", none, none⟩ (by decide)
    rw [h]; decide

/-- Looking up a frame after mutating it in the registry: when the mutation
preserves the frame id, the lookup returns the mutated frame. -/
theorem getFrameByID_updateFrame (frs : List Frame) (fid : FrameID) (g : Frame → Frame)
    (hg : ∀ f, (g f).id = f.id) :
    getFrameByID (updateFrame frs fid g) fid = (getFrameByID frs fid).map g := by
  induction frs with
  | nil => rfl
  | cons f frs ih =>
    simp only [updateFrame, getFrameByID] at ih ⊢
    by_cases h : f.id = fid
    · have h1 : ((g f).id == fid) = true := by simp [hg, h]
      have h2 : (f.id == fid) = true := by simp [h]
      simp only [List.map_cons, if_pos h2]
      rw [List.find?_cons_of_pos (p := fun (x : Frame) => x.id == fid) _ h1,
        List.find?_cons_of_pos (p := fun (x : Frame) => x.id == fid) _ h2]
      rfl
    · have h3 : ¬(f.id == fid) = true := by simp [h]
      simp only [List.map_cons, if_neg h3]
      rw [List.find?_cons_of_neg (p := fun (x : Frame) => x.id == fid) _ h3,
        List.find?_cons_of_neg (p := fun (x : Frame) => x.id == fid) _ h3]
      exact ih

/-- Claim C1: on `Runtime.executionContextCreated`, (i) the context is always
registered in the contextId-to-context map under its id; (ii) if the aux data
marks it default and the frame resolves, it is assigned to the frame's main
world; (iii) otherwise if its name is the utility-world name and the frame
has no utility context yet, it is assigned to the utility world; (iv) in the
remaining resolved cases and (v) when the frame does not resolve, no world
slot of any frame changes; (vi) an existing utility context is never
displaced, so duplicates resolve to whichever context arrived first. -/
theorem c1_execution_context_created (st : SessionState)
    (ev : EventExecutionContextCreated) :
    (List.lookup ev.ctxId (onExecutionContextCreated st ev).contextIDToContext =
      some ⟨ev.ctxId, (getFrameByID st.frames ev.frameId).map Frame.id⟩) ∧
    (∀ f, getFrameByID st.frames ev.frameId = some f → ev.isDefault = true →
      getFrameByID (onExecutionContextCreated st ev).frames ev.frameId =
        some (f.setContext World.main ev.ctxId)) ∧
    (∀ f, getFrameByID st.frames ev.frameId = some f → ev.isDefault = false →
      ev.name = utilityWorldName → f.utilityWorldCtx = none →
      getFrameByID (onExecutionContextCreated st ev).frames ev.frameId =
        some (f.setContext World.utility ev.ctxId)) ∧
    (∀ f, getFrameByID st.frames ev.frameId = some f → ev.isDefault = false →
      (ev.name ≠ utilityWorldName ∨ f.utilityWorldCtx ≠ none) →
      (onExecutionContextCreated st ev).frames = st.frames) ∧
    (getFrameByID st.frames ev.frameId = none →
      (onExecutionContextCreated st ev).frames = st.frames) ∧
    (∀ f c, getFrameByID st.frames ev.frameId = some f →
      f.utilityWorldCtx = some c →
      ∃ f', getFrameByID (onExecutionContextCreated st ev).frames ev.frameId = some f' ∧
        f'.utilityWorldCtx = some c) := by
  refine ⟨?_, fun f hf hd => ?_, fun f hf hd hn hu => ?_, fun f hf hd hw => ?_,
    fun hf => ?_, fun f c hf hu => ?_⟩
  · simp [onExecutionContextCreated, mapInsert, List.lookup]
  · rw [show (onExecutionContextCreated st ev).frames =
        updateFrame st.frames ev.frameId (fun f => f.setContext World.main ev.ctxId) by
      simp [onExecutionContextCreated, hf, hd]]
    rw [getFrameByID_updateFrame st.frames ev.frameId
      (fun f => f.setContext World.main ev.ctxId) (fun f => rfl), hf]
    rfl
  · rw [show (onExecutionContextCreated st ev).frames =
        updateFrame st.frames ev.frameId (fun f => f.setContext World.utility ev.ctxId) by
      simp [onExecutionContextCreated, hf, hd, hn, Frame.hasContext, hu]]
    rw [getFrameByID_updateFrame st.frames ev.frameId
      (fun f => f.setContext World.utility ev.ctxId) (fun f => rfl), hf]
    rfl
  · rcases hw with hw | hw
    · simp [onExecutionContextCreated, hf, hd, hw]
    · have hc : f.hasContext World.utility = true := by
        simp [Frame.hasContext, Option.isSome_iff_exists]
        cases h : f.utilityWorldCtx with
        | none => exact absurd h hw
        | some c => exact ⟨c, rfl⟩
      simp [onExecutionContextCreated, hf, hd, hc]
  · simp [onExecutionContextCreated, hf]
  · cases hd : ev.isDefault with
    | true =>
      refine ⟨f.setContext World.main ev.ctxId, ?_, ?_⟩
      · rw [show (onExecutionContextCreated st ev).frames =
            updateFrame st.frames ev.frameId (fun f => f.setContext World.main ev.ctxId) by
          simp [onExecutionContextCreated, hf, hd]]
        rw [getFrameByID_updateFrame st.frames ev.frameId
          (fun f => f.setContext World.main ev.ctxId) (fun f => rfl), hf]
        rfl
      · simp [Frame.setContext, hu]
    | false =>
      have hc : f.hasContext World.utility = true := by
        simp [Frame.hasContext, hu]
      refine ⟨f, ?_, hu⟩
      rw [show (onExecutionContextCreated st ev).frames = st.frames by
        simp [onExecutionContextCreated, hf, hd, hc]]
      exact hf

/-- Witness for C1 at a concrete state: a utility-named non-default context
is assigned to the empty utility slot and registered under its id, and a
second utility-named context does not displace it. -/
theorem c1_execution_context_created_witness :
    (getFrameByID
        (onExecutionContextCreated
          ⟨[⟨"f0", "https://x", none, none⟩], [], []⟩
          ⟨5, utilityWorldName, "f0", false, "isolated"⟩).frames "f0" =
      some (Frame.setContext ⟨"f0", "https://x", none, none⟩ World.utility 5)) ∧
    (List.lookup 5
        (onExecutionContextCreated
          ⟨[⟨"f0", "https://x", none, none⟩], [], []⟩
          ⟨5, utilityWorldName, "f0", false, "isolated"⟩).contextIDToContext =
      some ⟨5, some "f0"⟩) ∧
    (∃ f', getFrameByID
        (onExecutionContextCreated
          ⟨[⟨"f0", "https://x", none, some 5⟩], [], []⟩
          ⟨9, utilityWorldName, "f0", false, "isolated"⟩).frames "f0" = some f' ∧
      f'.utilityWorldCtx = some 5) := by
  refine ⟨?_, ?_, ?_⟩
  · exact (c1_execution_context_created ⟨[⟨"f0", "https://x", none, none⟩], [], []⟩
      ⟨5, utilityWorldName, "f0", false, "isolated"⟩).2.2.1
      ⟨"f0", "https://x", none, none⟩ (by decide) rfl rfl rfl
  · have h := (c1_execution_context_created ⟨[⟨"f0", "https://x", none, none⟩], [], []⟩
      ⟨5, utilityWorldName, "f0", false, "isolated"⟩).1
    rw [h]; decide
  · exact (c1_execution_context_created ⟨[⟨"f0", "https://x", none, some 5⟩], [], []⟩
      ⟨9, utilityWorldName, "f0", false, "isolated"⟩).2.2.2.2.2
      ⟨"f0", "https://x", none, some 5⟩ 5 (by decide) rfl

/-- "Frame `fid` holds context `c` in no world slot" over a registry. -/
def clearedAt (frs : List Frame) (fid : FrameID) (c : ContextID) : Prop :=
  ∀ f ∈ frs, f.id = fid → f.mainWorldCtx ≠ some c ∧ f.utilityWorldCtx ≠ some c

/-- Nulling never re-populates a slot: one clearing step preserves
`clearedAt`. -/
theorem clearStep_preserves (frs : List Frame) (e : ContextID × ExecutionContext)
    (fid : FrameID) (c : ContextID) (h : clearedAt frs fid c) :
    clearedAt (clearStep frs e) fid c := by
  intro f' hf' hid
  cases he : e.2.frame with
  | none =>
    simp only [clearStep, he] at hf'
    exact h f' hf' hid
  | some fid' =>
    simp only [clearStep, he, updateFrame, List.mem_map] at hf'
    obtain ⟨f, hf, rfl⟩ := hf'
    by_cases hb : (f.id == fid') = true
    · simp only [if_pos hb] at hid ⊢
      have hfid : f.id = fid := hid
      have := h f hf hfid
      constructor
      · simp only [Frame.nullContext]
        split
        · simp
        · exact this.1
      · simp only [Frame.nullContext]
        split
        · simp
        · exact this.2
    · simp only [if_neg hb] at hid ⊢
      exact h f hf hid

/-- The whole clearing fold preserves `clearedAt`. -/
theorem clearContexts_preserves (entries : List (ContextID × ExecutionContext))
    (frs : List Frame) (fid : FrameID) (c : ContextID) (h : clearedAt frs fid c) :
    clearedAt (entries.foldl clearStep frs) fid c := by
  induction entries generalizing frs with
  | nil => exact h
  | cons e es ih => exact ih (clearStep frs e) (clearStep_preserves frs e fid c h)

/-- One clearing step establishes `clearedAt` for its own entry. -/
theorem clearStep_establishes (frs : List Frame) (e : ContextID × ExecutionContext)
    (fid : FrameID) (he : e.2.frame = some fid) :
    clearedAt (clearStep frs e) fid e.2.id := by
  intro f' hf' hid
  simp only [clearStep, he, updateFrame, List.mem_map] at hf'
  obtain ⟨f, hf, rfl⟩ := hf'
  by_cases hb : (f.id == fid) = true
  · simp only [if_pos hb] at hid ⊢
    constructor
    · simp only [Frame.nullContext]
      split
      · simp
      · next hne => exact hne
    · simp only [Frame.nullContext]
      split
      · simp
      · next hne => exact hne
  · simp only [if_neg hb] at hid ⊢
    exact absurd (by simp [hid] : (f.id == fid) = true) hb

/-- The clearing fold clears the owning frame's slots for every entry of the
processed list. -/
theorem clearContexts_clears (p : ContextID × ExecutionContext) (fid : FrameID)
    (hpf : p.2.frame = some fid) :
    ∀ (entries : List (ContextID × ExecutionContext)) (frs : List Frame),
      p ∈ entries → clearedAt (entries.foldl clearStep frs) fid p.2.id := by
  intro entries
  induction entries with
  | nil => intro frs hp; cases hp
  | cons e es ih =>
    intro frs hp
    rcases List.mem_cons.mp hp with rfl | hp'
    · simp only [List.foldl_cons]
      exact clearContexts_preserves es (clearStep frs p) fid p.2.id
        (clearStep_establishes frs p fid hpf)
    · simp only [List.foldl_cons]
      exact ih (clearStep frs e) hp'

/-- Claim C4: `onExecutionContextsCleared` leaves the contextId-to-context
map empty, and for every context that was in the map and had an owning frame,
that frame's world slots no longer hold the context's id; subsequent
context-created events therefore see an empty map. -/
theorem c4_execution_contexts_cleared (st : SessionState) :
    (onExecutionContextsCleared st).contextIDToContext = [] ∧
    (∀ p ∈ st.contextIDToContext, ∀ fid, p.2.frame = some fid →
      ∀ f' ∈ (onExecutionContextsCleared st).frames, f'.id = fid →
        f'.mainWorldCtx ≠ some p.2.id ∧ f'.utilityWorldCtx ≠ some p.2.id) := by
  refine ⟨rfl, ?_⟩
  intro p hp fid hpf f' hf' hid
  have hf'' : f' ∈ st.contextIDToContext.foldl clearStep st.frames := by
    have heq : (onExecutionContextsCleared st).frames =
        st.contextIDToContext.foldl clearStep st.frames := rfl
    rwa [heq] at hf'
  exact clearContexts_clears p fid hpf st.contextIDToContext st.frames hp f' hf'' hid

/-- Witness for C4 at a concrete state: one frame holding contexts 3 (main)
and 5 (utility), both registered; after clearing, the map is empty and the
frame's slots hold neither id. -/
theorem c4_execution_contexts_cleared_witness :
    (onExecutionContextsCleared
      ⟨[⟨"f0", "https://x", some 3, some 5⟩],
        [(3, ⟨3, some "f0"⟩), (5, ⟨5, some "f0"⟩)], []⟩).contextIDToContext = [] ∧
    (Frame.mainWorldCtx ⟨"f0", "https://x", none, none⟩ ≠ some 3 ∧
      Frame.utilityWorldCtx ⟨"f0", "https://x", none, none⟩ ≠ some 5) := by
  refine ⟨(c4_execution_contexts_cleared
    ⟨[⟨"f0", "https://x", some 3, some 5⟩],
      [(3, ⟨3, some "f0"⟩), (5, ⟨5, some "f0"⟩)], []⟩).1, ?_, ?_⟩
  · exact ((c4_execution_contexts_cleared
      ⟨[⟨"f0", "https://x", some 3, some 5⟩],
        [(3, ⟨3, some "f0"⟩), (5, ⟨5, some "f0"⟩)], []⟩).2
      (3, ⟨3, some "f0"⟩) (by decide) "f0" rfl
      ⟨"f0", "https://x", none, none⟩ (by decide) rfl).1
  · exact ((c4_execution_contexts_cleared
      ⟨[⟨"f0", "https://x", some 3, some 5⟩],
        [(3, ⟨3, some "f0"⟩), (5, ⟨5, some "f0"⟩)], []⟩).2
      (5, ⟨5, some "f0"⟩) (by decide) "f0" rfl
      ⟨"f0", "https://x", none, none⟩ (by decide) rfl).2

/-- The trace of a member of a child list is an infix of the child-list
trace. -/
theorem handleFrameTreeList_infix_of_mem {c : FrameTree} :
    ∀ {cs : List FrameTree}, c ∈ cs →
      ∃ l r, handleFrameTreeList cs = l ++ handleFrameTree c ++ r := by
  intro cs
  induction cs with
  | nil => intro h; cases h
  | cons c' cs ih =>
    intro h
    rcases List.mem_cons.mp h with rfl | h'
    · exact ⟨[], handleFrameTreeList cs, by simp [handleFrameTreeList]⟩
    · obtain ⟨l, r, hlr⟩ := ih h'
      exact ⟨handleFrameTree c' ++ l, r, by simp [handleFrameTreeList, hlr]⟩

/-- The trace of a subtree is an infix of the whole tree's trace. -/
theorem handleFrameTree_infix_of_subtree {s t : FrameTree} (h : Subtree s t) :
    ∃ l r, handleFrameTree t = l ++ handleFrameTree s ++ r := by
  induction h with
  | refl => exact ⟨[], [], by simp⟩
  | @step c t hsub hc ih =>
    obtain ⟨l, r, hlr⟩ := ih
    obtain ⟨l2, r2, hlr2⟩ := handleFrameTreeList_infix_of_mem hc
    cases t with
    | node f p cs =>
      refine ⟨(if p ≠ "" then [TraceEv.frameAttached f p] else []) ++
        TraceEv.frameNavigated f true :: l2 ++ l, r ++ r2, ?_⟩
      simp only [FrameTree.children] at hlr2
      simp [handleFrameTree, hlr2, hlr]

/-- Counterexample to claim C5 as stated: during construction of a non-main
FrameSession (an OOPIF child session), `initFrameTree` fetches the tree but
does not walk it — no `frameAttached` call is made even for a tree whose root
has a non-empty parent id. -/
theorem c5_frame_tree_walk_cex :
    FrameTree.parentId (FrameTree.node "f1" "f0" []) ≠ "" ∧
    initFrameTreeTrace false (FrameTree.node "f1" "f0" []) = [] ∧
    TraceEv.frameAttached "f1" "f0" ∉
      initFrameTreeTrace false (FrameTree.node "f1" "f0" []) := by
  refine ⟨by decide, rfl, by simp [initFrameTreeTrace]⟩

/-- Claim C5 (amended): when the constructed FrameSession is the main-frame
session, the frame tree is walked depth-first: every subtree's trace appears
inside the full trace as its (optional) attach — present exactly when the
parent id is non-empty — immediately followed by its navigate with
`initial = true`, followed by the traces of all its children; so an attach
precedes its navigate and a parent is processed before its children. For
non-main sessions the tree is not walked. -/
theorem c5_frame_tree_walk_amended (t s : FrameTree) (h : Subtree s t) :
    ∃ l r, initFrameTreeTrace true t =
      l ++ ((if FrameTree.parentId s ≠ "" then
              [TraceEv.frameAttached (FrameTree.fid s) (FrameTree.parentId s)]
            else []) ++
        TraceEv.frameNavigated (FrameTree.fid s) true ::
          handleFrameTreeList (FrameTree.children s)) ++ r := by
  obtain ⟨l, r, hlr⟩ := handleFrameTree_infix_of_subtree h
  refine ⟨l, r, ?_⟩
  have hs : handleFrameTree s =
      (if FrameTree.parentId s ≠ "" then
        [TraceEv.frameAttached (FrameTree.fid s) (FrameTree.parentId s)]
      else []) ++
        TraceEv.frameNavigated (FrameTree.fid s) true ::
          handleFrameTreeList (FrameTree.children s) := by
    cases s with
    | node f p cs => simp [handleFrameTree, FrameTree.fid, FrameTree.parentId,
        FrameTree.children]
  rw [show initFrameTreeTrace true t = handleFrameTree t from rfl, hlr, hs]

/-- Witness for C5 (amended) at a one-node tree with a non-empty parent id:
the walk of the main-frame session attaches then navigates it. -/
theorem c5_frame_tree_walk_amended_witness :
    ∃ l r, initFrameTreeTrace true (FrameTree.node "f1" "f0" []) =
      l ++ ((if FrameTree.parentId (FrameTree.node "f1" "f0" []) ≠ "" then
              [TraceEv.frameAttached (FrameTree.fid (FrameTree.node "f1" "f0" []))
                (FrameTree.parentId (FrameTree.node "f1" "f0" []))]
            else []) ++
        TraceEv.frameNavigated (FrameTree.fid (FrameTree.node "f1" "f0" [])) true ::
          handleFrameTreeList (FrameTree.children (FrameTree.node "f1" "f0" []))) ++ r :=
  c5_frame_tree_walk_amended (FrameTree.node "f1" "f0" []) (FrameTree.node "f1" "f0" [])
    (Subtree.refl _)

end FrameSessionModel
